import Mathlib

set_option linter.unusedVariables false
set_option linter.deprecated false

/-!
Verification of the ParticleText per-frame particle simulation.

The JavaScript source (src/js/main.js, duplicated in src/unnamed/part_000) is
shallowly embedded here: JS numbers are modelled as rationals (all the
branching in the simulation compares finite values, and every concrete input
used below is exact in binary floating point), transcendental library
routines (Math.sqrt, Math.exp, Math.cos, Math.sin, Math.PI) are threaded in
as an explicit record of functions, and every call to Math.random() is an
explicit input stream.  Mutable parallel typed arrays become lists with
functional update; the per-frame `updatePhysics` procedure becomes a pure
state-transition function.
-/

/-- A 3-component vector, standing for a THREE.Vector3 / one slot of a flat
Float32Array of stride 3. -/
structure Vec3 where
  x : ℚ
  y : ℚ
  z : ℚ

namespace Vec3

def add (a b : Vec3) : Vec3 := ⟨a.x + b.x, a.y + b.y, a.z + b.z⟩

def sub (a b : Vec3) : Vec3 := ⟨a.x - b.x, a.y - b.y, a.z - b.z⟩

def smul (k : ℚ) (a : Vec3) : Vec3 := ⟨k * a.x, k * a.y, k * a.z⟩

def zero : Vec3 := ⟨0, 0, 0⟩

/-- Squared Euclidean length, as computed by THREE.Vector3.lengthSq. -/
def lengthSq (a : Vec3) : ℚ := a.x * a.x + a.y * a.y + a.z * a.z

/-- Cross product, as computed by THREE.Vector3.crossVectors. -/
def cross (a b : Vec3) : Vec3 :=
  ⟨a.y * b.z - a.z * b.y, a.z * b.x - a.x * b.z, a.x * b.y - a.y * b.x⟩

end Vec3

/-- The transcendental routines of the JS Math library, supplied abstractly:
the floating-point library functions are approximations, so the embedding
takes whatever functions the run provides and proves only what holds for the
code structure (or instantiates them concretely in witnesses). -/
structure JsMath where
  sqrt : ℚ → ℚ
  exp : ℚ → ℚ
  cos : ℚ → ℚ
  sin : ℚ → ℚ
  pi : ℚ

/-- THREE.Vector3.normalize: divideScalar(length || 1) — a zero-length vector
is returned unchanged. -/
def normalizeW (jm : JsMath) (v : Vec3) : Vec3 :=
  let len := jm.sqrt v.lengthSq
  if len = 0 then v else Vec3.smul (1 / len) v

/-- bezierEasing from main.js: clamps t to [0,1] and evaluates the cubic
Bezier Y-polynomial with anchors (0,0), (1,1) directly at the clamped t.
The x-coordinates of the control points are accepted but never read. -/
def bezierEasing (t p1x p1y p2x p2y : ℚ) : ℚ :=
  let t1 := max 0 (min 1 t)
  let oneMinusT := 1 - t1
  let oneMinusT2 := oneMinusT * oneMinusT
  let oneMinusT3 := oneMinusT2 * oneMinusT
  let t2 := t1 * t1
  let t3 := t2 * t1
  oneMinusT3 * 0 +
    3 * oneMinusT2 * t1 * p1y +
    3 * oneMinusT * t2 * p2y +
    t3 * 1

/-- An entry of CONFIG.waves: { radius, startTime } (the id field is unused
by the physics). -/
structure Wave where
  radius : ℚ
  startTime : ℚ

/-- An entry of CONFIG.explosions: { position, startTime, applied }. -/
structure Explosion where
  position : Vec3
  startTime : ℚ
  applied : Bool

/-- The per-frame-immutable part of the CONFIG object (the fields the
simulation step reads but never writes; the mutable fields live in
SimState).  The field `tangentialForceShare` embeds the source CONFIG field
spelled tangentialForce&#x52;atio in main.js (renamed here for lexical reasons). -/
structure Config where
  particleCount : ℕ
  forceStrength : ℚ
  interactionRadius : ℚ
  springConstant : ℚ
  damping : ℚ
  timeScale : ℚ
  pointSize : ℚ
  sizeVariation : ℚ
  autonomousMotionStrength : ℚ
  chaosAngle : ℚ
  chaosStrength : ℚ
  tangentialForceShare : ℚ
  zAxisStrength : ℚ
  loadAnimationDuration : ℚ
  curveP1x : ℚ
  curveP1y : ℚ
  curveP2x : ℚ
  curveP2y : ℚ
  waveEnabled : Bool
  waveInterval : ℚ
  waveSpeed : ℚ
  waveWidth : ℚ
  waveForce : ℚ
  waveGlowIntensity : ℚ
  waveForceFalloff : ℚ
  maxBrightness : ℚ
  depthDarkeningStrength : ℚ
  glowBrightness : ℚ
  velocityGlowMultiplier : ℚ
  explosionEnabled : Bool
  explosionForce : ℚ
  explosionSpeed : ℚ
  explosionReturnDelay : ℚ
  explosionGlowIntensity : ℚ
  explosionGlowDuration : ℚ

/-- The default CONFIG values from main.js (storage-free load). -/
def defaultConfig : Config where
  particleCount := 10000
  forceStrength := 100
  interactionRadius := 5
  springConstant := 0.35
  damping := 0.90
  timeScale := 0.90
  pointSize := 4
  sizeVariation := 0.5
  autonomousMotionStrength := 0.04
  chaosAngle := 45
  chaosStrength := 0.8
  tangentialForceShare := 0.4
  zAxisStrength := 0.6
  loadAnimationDuration := 4000
  curveP1x := 0.42
  curveP1y := 0
  curveP2x := 0.58
  curveP2y := 1
  waveEnabled := false
  waveInterval := 8000
  waveSpeed := 6
  waveWidth := 1.6
  waveForce := 0.001
  waveGlowIntensity := 0.75
  waveForceFalloff := 0.5
  maxBrightness := 1
  depthDarkeningStrength := 1.85
  glowBrightness := 0.19
  velocityGlowMultiplier := 0.10
  explosionEnabled := true
  explosionForce := 10
  explosionSpeed := 0.20
  explosionReturnDelay := 1200
  explosionGlowIntensity := 0.8
  explosionGlowDuration := 500

/-- waveSigma precomputation (main.js:1658). -/
def waveSigma (cfg : Config) : ℚ := cfg.waveWidth / 2

/-- Maximum distance at which a wave still influences a particle
(main.js:1659). -/
def waveCutoffDistance (cfg : Config) : ℚ := 2 * waveSigma cfg

/-- Guarded reciprocal of sigma (main.js:1660). -/
def waveInvSigma (cfg : Config) : ℚ :=
  if waveSigma cfg > 0 then 1 / waveSigma cfg else 0

/-- Half the diagonal of the camera's visible area (main.js:1651-1653);
despite its source name this is half, not all, of the viewport diagonal. -/
def maxWaveRadius (jm : JsMath) (camLeft camRight camTop camBottom : ℚ) : ℚ :=
  let viewportWidth := camRight - camLeft
  let viewportHeight := camTop - camBottom
  jm.sqrt (viewportWidth * viewportWidth + viewportHeight * viewportHeight) / 2

/-- One frame's radius growth of a wave (main.js:1684). -/
def waveAdvance (cfg : Config) (w : Wave) : Wave :=
  { w with radius := w.radius + cfg.waveSpeed * 0.016 * cfg.timeScale }

/-- Propagation and removal of the active waves (main.js:1682-1697): every
wave's radius grows by waveSpeed*0.016*timeScale, then waves whose new
radius has reached mwr + waveWidth are dropped, preserving order. -/
def wavePropagate (cfg : Config) (mwr : ℚ) (ws : List Wave) : List Wave :=
  (ws.map (waveAdvance cfg)).filter (fun w => decide (w.radius < mwr + cfg.waveWidth))

/-- Influence bounds accumulated over the surviving waves (main.js:1690-1696);
`none` stands for the untouched infinite initial bounds, under which the
containment test of main.js:1903 is false. -/
def waveBoundsOf (cfg : Config) (ws : List Wave) : Option (ℚ × ℚ) :=
  ws.foldl (fun b w =>
    let waveCenterRadius := w.radius - cfg.waveWidth / 2
    let lo := waveCenterRadius - waveCutoffDistance cfg
    let hi := waveCenterRadius + waveCutoffDistance cfg
    match b with
    | none => some (lo, hi)
    | some (mn, mx) => some (min mn lo, max mx hi)) none

/-- Wave creation and propagation for one frame (main.js:1663-1698): inside
the waveEnabled && !isLoadingAnimation guard, a null cadence timer is
initialized to now, a wave of radius 0 is appended once the timer is
waveInterval old, and all waves are advanced/culled. -/
def waveUpdate (cfg : Config) (isLoading : Bool) (now mwr : ℚ)
    (lastWaveTime : Option ℚ) (ws : List Wave) :
    Option ℚ × List Wave × Option (ℚ × ℚ) :=
  if cfg.waveEnabled && !isLoading then
    let lwt1 := match lastWaveTime with
      | none => now
      | some t => t
    let push := decide (cfg.waveInterval ≤ now - lwt1)
    let lwt2 := if push then now else lwt1
    let ws1 := if push then ws ++ [⟨0, now⟩] else ws
    let ws2 := wavePropagate cfg mwr ws1
    (some lwt2, ws2, waveBoundsOf cfg ws2)
  else (lastWaveTime, ws, none)

/-- Impulse of one unapplied explosion on one particle (main.js:1858-1874):
the particle's fixed scroll direction plus a bounded jitter drawn from
Math.random(), scaled by explosionForce * 0.1. -/
def explosionImpulse (cfg : Config) (dir jitterDraw : Vec3) : Vec3 :=
  let randomFactor : ℚ := 0.2
  let randX := (jitterDraw.x - 0.5) * randomFactor
  let randY := (jitterDraw.y - 0.5) * randomFactor
  let randZ := (jitterDraw.z - 0.5) * randomFactor
  let impulseStrength := cfg.explosionForce * 0.1
  ⟨(dir.x + randX) * impulseStrength,
   (dir.y + randY) * impulseStrength,
   (dir.z + randZ) * impulseStrength⟩

/-- The per-particle explosion timer writes (main.js:1876-1886): both the
return timer and the glow-end timer take the later of their existing value
and now + configured delay/duration. -/
def explosionTimers (cfg : Config) (nowPerf ret glow : ℚ) : ℚ × ℚ :=
  (max ret (nowPerf + cfg.explosionReturnDelay),
   max glow (nowPerf + cfg.explosionGlowDuration))

/-- Processing of one (index, explosion) pair for one particle inside the
explosion loop (main.js:1855-1887): an already-applied explosion is skipped,
otherwise the impulse is added and both timers are extended. -/
def explStep (cfg : Config) (nowPerf : ℚ) (dir : Vec3) (jit : ℕ → Vec3)
    (retOk glowOk : Bool) (acc : Vec3 × ℚ × ℚ) (p : ℕ × Explosion) :
    Vec3 × ℚ × ℚ :=
  if p.2.applied then acc
  else
    let v1 := Vec3.add acc.1 (explosionImpulse cfg dir (jit p.1))
    let timers := explosionTimers cfg nowPerf acc.2.1 acc.2.2
    let ret1 := if retOk then timers.1 else acc.2.1
    let glow1 := if glowOk then timers.2 else acc.2.2
    (v1, ret1, glow1)

/-- Application of the pending explosion batch to one particle
(main.js:1854-1888): every explosion not yet marked applied adds its impulse
to the velocity and extends the two timers (timer writes are guarded by the
array-length checks retOk/glowOk). -/
def applyExplosionsToParticle (cfg : Config) (nowPerf : ℚ) (dir : Vec3)
    (jit : ℕ → Vec3) (retOk glowOk : Bool) (expl : List Explosion)
    (v : Vec3) (ret glow : ℚ) : Vec3 × ℚ × ℚ :=
  expl.enum.foldl (explStep cfg nowPerf dir jit retOk glowOk) (v, ret, glow)

/-- End-of-frame explosion cleanup (main.js:2212-2221): mark every explosion
applied, then drop all applied ones. -/
def cleanupExplosions (l : List Explosion) : List Explosion :=
  if l.length > 0 then
    (l.map (fun e => { e with applied := true })).filter (fun e => !e.applied)
  else l

/-- Position/velocity pair of one particle. -/
structure PartPV where
  pos : Vec3
  vel : Vec3

/-- One particle's integration step (main.js:1982-2062): the position is
first advected by velocity * timeScale; a particle still in explosion free
flight then gets light decay and flight integration, otherwise the
spring-damper with the rest-snap short circuit runs. -/
def integrate (cfg : Config) (inFlight : Bool) (target : Vec3) (p : PartPV) :
    PartPV :=
  let pos1 := Vec3.add p.pos (Vec3.smul cfg.timeScale p.vel)
  if inFlight then
    let dt := 0.016 * cfg.timeScale * cfg.explosionSpeed
    let v := Vec3.smul 0.98 p.vel
    ⟨Vec3.add pos1 (Vec3.smul dt v), v⟩
  else
    let displacement := Vec3.sub target pos1
    let displacementLengthSq := displacement.lengthSq
    let velocityLengthSq := p.vel.lengthSq
    let threshold : ℚ := 0.001
    let thresholdSq := threshold * threshold
    if displacementLengthSq < thresholdSq ∧ velocityLengthSq < thresholdSq then
      ⟨target, Vec3.zero⟩
    else
      let dt := 0.016 * cfg.timeScale
      let v1 := Vec3.add p.vel (Vec3.smul dt (Vec3.smul cfg.springConstant displacement))
      let v2 := Vec3.smul cfg.damping v1
      ⟨Vec3.add pos1 (Vec3.smul dt v2), v2⟩

/-- Fixed depth-normalization constants (main.js:1735-1737 and 1595-1597). -/
def fixedMinDistance : ℚ := 0

/-- Fixed maximum of the depth-normalization range (main.js:1736). -/
def fixedMaxDistance : ℚ := 70

/-- The fixed normalization range, 70 (main.js:1737). -/
def fixedDistanceRange : ℚ := fixedMaxDistance - fixedMinDistance

/-- Depth of a particle: absolute distance from the camera along the Z axis
only (main.js:1744-1746). -/
def depthDistance (z camZ : ℚ) : ℚ := |z - camZ|

/-- Depth-based base brightness before scaling (main.js:2097-2102): the
distance is normalized against the fixed range, clamped to [0,1], and turned
into 1 - clamped * depthDarkeningStrength. -/
def depthBase (cfg : Config) (distance : ℚ) : ℚ :=
  let normalizedDistance :=
    if fixedDistanceRange > 0 then (distance - fixedMinDistance) / fixedDistanceRange else 0
  let clampedNormalizedDistance := max 0 (min 1 normalizedDistance)
  1 - clampedNormalizedDistance * cfg.depthDarkeningStrength

/-- Gaussian influence factor of one wave at radial distance d from the wave
origin: exp(-falloff * ((|d - centerRadius|)/sigma)^2), shared by the force,
size and glow passes (main.js:1920-1930 and 2125-2134). -/
def waveGaussFactor (jm : JsMath) (cfg : Config) (d : ℚ) (w : Wave) : ℚ :=
  let waveCenterRadius := w.radius - cfg.waveWidth / 2
  let distanceFromCenter := |d - waveCenterRadius|
  let normalizedDistance := distanceFromCenter * waveInvSigma cfg
  jm.exp (-cfg.waveForceFalloff * (normalizedDistance * normalizedDistance))

/-- Summed velocity impulse and size factor over all waves within cutoff of
one particle (main.js:1918-1943). -/
def waveForceAccum (jm : JsMath) (cfg : Config) (ws : List Wave) (d : ℚ)
    (dir : Vec3) : Vec3 × ℚ :=
  ws.foldl (fun acc w =>
    let waveCenterRadius := w.radius - cfg.waveWidth / 2
    let distanceFromCenter := |d - waveCenterRadius|
    if distanceFromCenter ≤ waveCutoffDistance cfg then
      let forceFactor := waveGaussFactor jm cfg d w
      let waveForce := cfg.waveForce * forceFactor * cfg.timeScale
      (Vec3.add acc.1 (Vec3.smul waveForce dir), acc.2 + forceFactor)
    else acc) (Vec3.zero, 0)

/-- Per-particle wave force and size factor with the precomputed-bounds early
exit (main.js:1893-1950): outside the bounds envelope (or with no bounds at
all) both outputs are zero. -/
def waveForceDelta (jm : JsMath) (cfg : Config) (bounds : Option (ℚ × ℚ))
    (ws : List Wave) (pos waveCenter : Vec3) : Vec3 × ℚ :=
  let dx := pos.x - waveCenter.x
  let dy := pos.y - waveCenter.y
  let dz := pos.z - waveCenter.z
  let cachedWaveDistance := jm.sqrt (dx * dx + dy * dy + dz * dz)
  match bounds with
  | some (mn, mx) =>
    if mn ≤ cachedWaveDistance ∧ cachedWaveDistance ≤ mx then
      let invDistance := 1 / cachedWaveDistance
      let directionToParticle : Vec3 := ⟨dx * invDistance, dy * invDistance, dz * invDistance⟩
      waveForceAccum jm cfg ws cachedWaveDistance directionToParticle
    else (Vec3.zero, 0)
  | none => (Vec3.zero, 0)

/-- Wave-driven displayed size of one particle (main.js:1953-1979): an
invisible particle (baseSize 0) fades in with a deterministic index-hashed
size while a wave passes, a visible one swells up to 150%. -/
def sizeFromWave (cfg : Config) (i : ℕ) (baseSize totalWaveSizeFactor : ℚ) : ℚ :=
  if baseSize = 0 then
    if totalWaveSizeFactor > 0 then
      let minSize := cfg.pointSize * (1 - cfg.sizeVariation)
      let maxSize := cfg.pointSize * (1 + cfg.sizeVariation)
      let hash : ℚ := (((i * 2654435761) % 2147483647 : ℕ) : ℚ) / 2147483647
      let invisibleBaseSize := minSize + hash * (maxSize - minSize)
      let fadeFactor := min totalWaveSizeFactor 1
      invisibleBaseSize * fadeFactor
    else 0
  else
    baseSize * (1 + totalWaveSizeFactor * 0.5)

/-- Summed wave glow at radial distance d, capped at waveGlowIntensity
(main.js:2123-2143). -/
def waveGlowSum (jm : JsMath) (cfg : Config) (ws : List Wave) (d : ℚ) : ℚ :=
  ws.foldl (fun acc w =>
    let waveCenterRadius := w.radius - cfg.waveWidth / 2
    let distanceFromCenter := |d - waveCenterRadius|
    if distanceFromCenter ≤ waveCutoffDistance cfg then
      acc + cfg.waveGlowIntensity * waveGaussFactor jm cfg d w
    else acc) 0

/-- Per-particle glow value (main.js:2173-2196): velocity-reactive when the
multiplier is positive, otherwise the cached static value is rewritten only
while an update is pending. -/
def deriveGlow (jm : JsMath) (cfg : Config) (glowStaticPending : Bool)
    (vel : Vec3) (glowOld : ℚ) : ℚ :=
  if cfg.velocityGlowMultiplier > 0 then
    let velocityMag := jm.sqrt vel.lengthSq
    min (cfg.glowBrightness + velocityMag * cfg.velocityGlowMultiplier) 1
  else if glowStaticPending then min cfg.glowBrightness 1
  else glowOld

/-- Per-particle inputs of the color pass. -/
structure ColorIn where
  idx : ℕ
  distance : ℚ
  inBaseRange : Bool
  baseSize : ℚ
  size : ℚ
  pos : Vec3
  glowEndInRange : Bool
  glowEndTime : ℚ

/-- Final brightness of one particle for the frame (main.js:2089-2203):
depth brightness, invisible-point suppression of the depth term, scaling by
maxBrightness, outside-formation dimming, additive wave glow, additive
explosion glow, and the final upper clamp at 1. -/
def deriveBrightness (jm : JsMath) (cfg : Config) (waveActive : Bool)
    (bounds : Option (ℚ × ℚ)) (ws : List Wave) (waveCenter : Vec3)
    (nowPerf : ℚ) (p : ColorIn) : ℚ :=
  let baseBrightness0 := depthBase cfg p.distance
  let baseBrightness :=
    if p.inBaseRange ∧ p.baseSize = 0 ∧ p.size = 0 then 0 else baseBrightness0
  let totalWaveGlow :=
    if waveActive then
      let dx := p.pos.x - waveCenter.x
      let dy := p.pos.y - waveCenter.y
      let dz := p.pos.z - waveCenter.z
      let cachedWaveDistance := jm.sqrt (dx * dx + dy * dy + dz * dz)
      match bounds with
      | some (mn, mx) =>
        if mn ≤ cachedWaveDistance ∧ cachedWaveDistance ≤ mx then
          min (waveGlowSum jm cfg ws cachedWaveDistance) cfg.waveGlowIntensity
        else 0
      | none => 0
    else 0
  let scaledBrightness0 := baseBrightness * cfg.maxBrightness
  let isOutsideSVG := cfg.particleCount ≤ p.idx
  let scaledBrightness :=
    if isOutsideSVG ∧ cfg.maxBrightness < 0.99 then scaledBrightness0 * 0.5
    else scaledBrightness0
  let withWave := scaledBrightness + totalWaveGlow
  let withExplosion :=
    if cfg.explosionEnabled ∧ p.glowEndInRange ∧ p.glowEndTime > nowPerf then
      let remainingTime := p.glowEndTime - nowPerf
      let fadeFactor := remainingTime / cfg.explosionGlowDuration
      withWave + cfg.explosionGlowIntensity * fadeFactor
    else withWave
  min withExplosion 1

/-- randomDirection3D from main.js:1466-1502: perturbs a base direction by a
random cone angle (draws r1, r2 stand for the two Math.random() calls). -/
def randomDirection3D (jm : JsMath) (baseDirection : Vec3)
    (maxAngleDegrees chaosStrength r1 r2 : ℚ) : Vec3 :=
  let maxAngle := maxAngleDegrees * jm.pi / 180
  let angle := r1 * maxAngle * chaosStrength
  let azimuth := r2 * jm.pi * 2
  let seed : Vec3 := if |baseDirection.x| < 0.9 then ⟨1, 0, 0⟩ else ⟨0, 1, 0⟩
  let tempPerpendicular := normalizeW jm (Vec3.cross baseDirection seed)
  let tempPerpendicular2 := normalizeW jm (Vec3.cross baseDirection tempPerpendicular)
  let cosAngle := jm.cos angle
  let sinAngle := jm.sin angle
  let cosAzimuth := jm.cos azimuth
  let sinAzimuth := jm.sin azimuth
  normalizeW jm (Vec3.add (Vec3.add (Vec3.smul cosAngle baseDirection)
    (Vec3.smul (sinAngle * cosAzimuth) tempPerpendicular))
    (Vec3.smul (sinAngle * sinAzimuth) tempPerpendicular2))

/-- The Math.random() draws consumed for one particle in one frame. -/
structure ParticleRand where
  chaosAngleDraw : ℚ
  chaosAzimuthDraw : ℚ
  tangentialAngleDraw : ℚ
  forceVariationDraw : ℚ
  zComponentDraw : ℚ
  jitterOn : Bool
  jitterDraw : Vec3
  explosionJitterDraw : ℕ → Vec3

/-- Pointer-interaction velocity delta for one particle (main.js:1774-1840);
zero outside the interaction radius. -/
def pointerForceDelta (jm : JsMath) (cfg : Config) (r : ParticleRand)
    (pos mouse3D : Vec3) (forceMultiplier : ℚ) : Vec3 :=
  let dx := pos.x - mouse3D.x
  let dy := pos.y - mouse3D.y
  let dz := pos.z - mouse3D.z
  let distanceSq := dx * dx + dy * dy + dz * dz
  let interactionRadiusSq := cfg.interactionRadius * cfg.interactionRadius
  if distanceSq < interactionRadiusSq then
    let distance := jm.sqrt distanceSq
    let baseDirection := normalizeW jm (Vec3.sub pos mouse3D)
    let chaoticDirection := randomDirection3D jm baseDirection cfg.chaosAngle
      cfg.chaosStrength r.chaosAngleDraw r.chaosAzimuthDraw
    let crossZ := Vec3.cross baseDirection ⟨0, 0, 1⟩
    let tangentPre := if jm.sqrt crossZ.lengthSq < 0.1
      then Vec3.cross baseDirection ⟨1, 0, 0⟩ else crossZ
    let tangent1 := normalizeW jm tangentPre
    let tangent2 := normalizeW jm (Vec3.cross baseDirection tangent1)
    let tangentialAngle := r.tangentialAngleDraw * jm.pi * 2
    let tangentX := jm.cos tangentialAngle
    let tangentY := jm.sin tangentialAngle
    let tangent := Vec3.add (Vec3.smul tangentX tangent1) (Vec3.smul tangentY tangent2)
    let distanceFactor := 1 - distance / cfg.interactionRadius
    let baseForce := distanceFactor * forceMultiplier
    let forceVariation := 0.7 + r.forceVariationDraw * 0.6
    let force := baseForce * forceVariation
    let radialForce := force * (1 - cfg.tangentialForceShare)
    let tangentialForce := force * cfg.tangentialForceShare
    let zComponent := (r.zComponentDraw - 0.5) * 2 * cfg.zAxisStrength
    let finalDirection := Vec3.add (Vec3.smul radialForce chaoticDirection)
      (Vec3.smul tangentialForce tangent)
    ⟨finalDirection.x * 0.2 * cfg.timeScale,
     finalDirection.y * 0.2 * cfg.timeScale,
     (finalDirection.z + zComponent) * 0.2 * cfg.timeScale⟩
  else Vec3.zero

/-- Autonomous-jitter velocity delta (main.js:1845-1850): applied with
per-frame probability 0.3 per particle (the draw result is jitterOn). -/
def jitterDelta (cfg : Config) (r : ParticleRand) : Vec3 :=
  if cfg.autonomousMotionStrength > 0 ∧ r.jitterOn then
    let randomFactor := cfg.autonomousMotionStrength * 0.3 * cfg.timeScale
    ⟨(r.jitterDraw.x - 0.5) * randomFactor,
     (r.jitterDraw.y - 0.5) * randomFactor,
     (r.jitterDraw.z - 0.5) * randomFactor⟩
  else Vec3.zero

/-- The mutable simulation state: the parallel per-particle arrays of the
Particle Store plus the wave/explosion lists and the loading and caching
flags that updatePhysics reads and writes. -/
structure SimState where
  totalParticleCount : ℕ
  positions : List Vec3
  originalPositions : List Vec3
  baseOriginalPositions : List Vec3
  startPositions : List Vec3
  scrollDirections : List Vec3
  velocities : List Vec3
  colors : List Vec3
  sizes : List ℚ
  baseSizes : List ℚ
  glows : List ℚ
  explosionGlowEndTimes : List ℚ
  explosionReturnTimes : List ℚ
  isLoadingAnimation : Bool
  loadAnimationStartTime : Option ℚ
  lastWaveTime : Option ℚ
  waves : List Wave
  explosions : List Explosion
  wasWaveActive : Bool
  cachedGlowBrightness : ℚ
  cachedVelocityGlowMultiplier : ℚ
  glowStaticNeedsUpdate : Bool

/-- The read-only per-frame inputs: clocks, pointer state, camera frustum
and the random draws. -/
structure FrameIn where
  nowDate : ℚ
  nowPerf : ℚ
  mouseVelocity : ℚ × ℚ
  mouseMovedThisFrame : Bool
  isPointerDown : Bool
  isPointerInsideCanvas : Bool
  mouse3D : Vec3
  camZ : ℚ
  camLeft : ℚ
  camRight : ℚ
  camTop : ℚ
  camBottom : ℚ
  rand : ℕ → ParticleRand

/-- The wave origin, fixed at the screen center (main.js:1463). -/
def waveCenter : Vec3 := ⟨0, 0, 0⟩

/-- Functional update of the first n entries of a parallel array (a loop
`for i < n: a[i] = f(i)` on a typed array, which silently ignores writes
past the array's end). -/
def updAt {α : Type} (l : List α) (n : ℕ) (f : ℕ → α) : List α :=
  l.mapIdx (fun i a => if i < n then f i else a)

/-- Componentwise lerp start + (target - start) * t (main.js:1582-1584). -/
def lerpVec (a b : Vec3) (t : ℚ) : Vec3 :=
  ⟨a.x + (b.x - a.x) * t, a.y + (b.y - a.y) * t, a.z + (b.z - a.z) * t⟩

/-- The array writes of the loading-animation branch (main.js:1562-1632):
positions are lerped from startPositions to originalPositions by the easing
value, colors are derived from the new Z depth alone (clamped at both ends
here), and all glows ramp with the easing value. -/
def loadingWrites (cfg : Config) (s : SimState) (camZ easingValue : ℚ) : SimState :=
  let actualParticleCount := min s.totalParticleCount s.positions.length
  let positions1 := updAt s.positions actualParticleCount (fun i =>
    lerpVec (s.startPositions.getD i Vec3.zero) (s.originalPositions.getD i Vec3.zero)
      easingValue)
  let colors1 := updAt s.colors actualParticleCount (fun i =>
    let dz := (positions1.getD i Vec3.zero).z - camZ
    let distance := |dz|
    let normalizedDistance := max 0 (min 1 (distance / fixedDistanceRange))
    let brightness := 1 - normalizedDistance * cfg.depthDarkeningStrength
    let clampedBrightness := max 0 (min 1 brightness)
    (⟨clampedBrightness, clampedBrightness, clampedBrightness⟩ : Vec3))
  let currentGlowValue := cfg.glowBrightness * easingValue
  let glows1 := updAt s.glows actualParticleCount (fun _ => currentGlowValue)
  { s with positions := positions1, colors := colors1, glows := glows1 }

/-- Outputs of one particle's pass through the settled main loop. -/
structure POut where
  pos : Vec3
  vel : Vec3
  size : ℚ
  ret : ℚ
  glowEnd : ℚ

/-- Per-frame flags and data shared by every particle's settled-loop pass
(main.js:1752-1760). -/
structure StepCtx where
  interactionActive : Bool
  forceMultiplier : ℚ
  hasExplosions : Bool
  waveActive : Bool
  bounds : Option (ℚ × ℚ)
  waves : List Wave

/-- One particle's pass through the settled main loop (main.js:1763-2062):
pointer force, jitter, explosion impulses and timers, wave force, wave-driven
size, then integration. -/
def particleStep (jm : JsMath) (cfg : Config) (fin : FrameIn) (ctx : StepCtx)
    (s : SimState) (i : ℕ) : POut :=
  let pos0 := s.positions.getD i Vec3.zero
  let vel0 := s.velocities.getD i Vec3.zero
  let r := fin.rand i
  let v1 := if ctx.interactionActive
    then Vec3.add vel0 (pointerForceDelta jm cfg r pos0 fin.mouse3D ctx.forceMultiplier)
    else vel0
  let v2 := Vec3.add v1 (jitterDelta cfg r)
  let ret0 := s.explosionReturnTimes.getD i 0
  let glowEnd0 := s.explosionGlowEndTimes.getD i 0
  let afterExpl :=
    if ctx.hasExplosions then
      applyExplosionsToParticle cfg fin.nowPerf (s.scrollDirections.getD i Vec3.zero)
        r.explosionJitterDraw (decide (i < s.explosionReturnTimes.length))
        (decide (i < s.explosionGlowEndTimes.length)) s.explosions v2 ret0 glowEnd0
    else (v2, ret0, glowEnd0)
  let v3 := afterExpl.1
  let ret1 := afterExpl.2.1
  let glowEnd1 := afterExpl.2.2
  let wf := if ctx.waveActive
    then waveForceDelta jm cfg ctx.bounds ctx.waves pos0 waveCenter
    else (Vec3.zero, 0)
  let v4 := Vec3.add v3 wf.1
  let totalWaveSizeFactor := wf.2
  let size1 := if ctx.waveActive ∧ i < s.baseSizes.length
    then sizeFromWave cfg i (s.baseSizes.getD i 0) totalWaveSizeFactor
    else s.sizes.getD i 0
  let inFlight := decide (i < s.explosionReturnTimes.length) && decide (ret1 > fin.nowPerf)
  let pv := integrate cfg inFlight (s.originalPositions.getD i Vec3.zero) ⟨pos0, v4⟩
  ⟨pv.pos, pv.vel, size1, ret1, glowEnd1⟩

/-- The bound of the settled main loop (main.js:1703-1716): the minimum of
totalParticleCount and the lengths of the parallel arrays read in the loop,
so a transiently mismatched rebuild cannot cause an out-of-range access. -/
def actualCount (s : SimState) : ℕ :=
  min s.totalParticleCount (min (s.positions.length)
    (min (s.originalPositions.length) (min (s.startPositions.length)
      (min (s.velocities.length) (s.colors.length)))))

/-- The settled-state part of updatePhysics (main.js:1645-2232): wave
creation/propagation, the per-particle force/integration loop, the
wave-deactivation size reset, the glow cache, the color/glow pass, and the
explosion cleanup. -/
def settledStep (jm : JsMath) (cfg : Config) (fin : FrameIn) (mouseVel : ℚ × ℚ)
    (s : SimState) : SimState :=
  let now := fin.nowDate
  let mwr := maxWaveRadius jm fin.camLeft fin.camRight fin.camTop fin.camBottom
  let wu := waveUpdate cfg s.isLoadingAnimation now mwr s.lastWaveTime s.waves
  let lastWaveTime1 := wu.1
  let waves1 := wu.2.1
  let bounds := wu.2.2
  let actualParticleCount := actualCount s
  let distBuf : ℕ → ℚ := fun i => depthDistance (s.positions.getD i Vec3.zero).z fin.camZ
  let speed := jm.sqrt (mouseVel.1 * mouseVel.1 + mouseVel.2 * mouseVel.2)
  let forceMultiplier := min (speed * cfg.forceStrength) (cfg.forceStrength * 2)
  let interactionActive := fin.isPointerInsideCanvas &&
    (fin.isPointerDown || decide (speed > 0.001))
  let hasExplosions := cfg.explosionEnabled && !s.explosions.isEmpty
  let waveActive := cfg.waveEnabled && !waves1.isEmpty
  let ctx : StepCtx := ⟨interactionActive, forceMultiplier, hasExplosions,
    waveActive, bounds, waves1⟩
  let outs : ℕ → POut := fun i => particleStep jm cfg fin ctx s i
  let positions1 := updAt s.positions actualParticleCount (fun i => (outs i).pos)
  let velocities1 := updAt s.velocities actualParticleCount (fun i => (outs i).vel)
  let sizes1 := updAt s.sizes actualParticleCount (fun i => (outs i).size)
  let returnTimes1 := updAt s.explosionReturnTimes actualParticleCount (fun i => (outs i).ret)
  let glowEnds1 := updAt s.explosionGlowEndTimes actualParticleCount (fun i => (outs i).glowEnd)
  let resetCount := min sizes1.length s.baseSizes.length
  let sizes2 := if !waveActive && s.wasWaveActive
    then updAt sizes1 resetCount (fun i => s.baseSizes.getD i 0)
    else sizes1
  let cacheStale := decide (s.cachedGlowBrightness ≠ cfg.glowBrightness) ||
    decide (s.cachedVelocityGlowMultiplier ≠ cfg.velocityGlowMultiplier)
  let cachedGlow1 := if cacheStale then cfg.glowBrightness else s.cachedGlowBrightness
  let cachedVel1 := if cacheStale then cfg.velocityGlowMultiplier
    else s.cachedVelocityGlowMultiplier
  let glowStaticPending := if cacheStale then true else s.glowStaticNeedsUpdate
  let glowIsDynamic := decide (cfg.velocityGlowMultiplier > 0)
  let colors1 := updAt s.colors actualParticleCount (fun i =>
    let b := deriveBrightness jm cfg waveActive bounds waves1 waveCenter fin.nowPerf
      { idx := i, distance := distBuf i,
        inBaseRange := decide (i < s.baseSizes.length),
        baseSize := s.baseSizes.getD i 0,
        size := sizes2.getD i 0,
        pos := positions1.getD i Vec3.zero,
        glowEndInRange := decide (i < glowEnds1.length),
        glowEndTime := glowEnds1.getD i 0 }
    (⟨b, b, b⟩ : Vec3))
  let glows1 := updAt s.glows actualParticleCount (fun i =>
    deriveGlow jm cfg glowStaticPending (velocities1.getD i Vec3.zero) (s.glows.getD i 0))
  let glowStatic2 := if !glowIsDynamic && glowStaticPending then false else glowStaticPending
  { s with
    positions := positions1, velocities := velocities1, sizes := sizes2,
    colors := colors1, glows := glows1,
    explosionReturnTimes := returnTimes1, explosionGlowEndTimes := glowEnds1,
    lastWaveTime := lastWaveTime1, waves := waves1,
    explosions := cleanupExplosions s.explosions,
    wasWaveActive := waveActive,
    cachedGlowBrightness := cachedGlow1,
    cachedVelocityGlowMultiplier := cachedVel1,
    glowStaticNeedsUpdate := glowStatic2 }

/-- One full call of updatePhysics (main.js:1529-2233), with the geometry
presumed initialized: the effective mouse velocity is zeroed when the
pointer did not move this frame; while the loading animation is active only
the loading writes happen; on the frame whose progress reaches 1 the
Settled transition fires (wave cadence timer initialization included) and
the settled step runs in the same call; afterwards every call is a settled
step. -/
def updatePhysicsStep (jm : JsMath) (cfg : Config) (fin : FrameIn)
    (s : SimState) : SimState :=
  let mouseVel := if fin.mouseMovedThisFrame then fin.mouseVelocity else ((0 : ℚ), (0 : ℚ))
  match s.isLoadingAnimation, s.loadAnimationStartTime with
  | true, some startTime =>
    let elapsed := fin.nowDate - startTime
    let progress := min 1 (elapsed / cfg.loadAnimationDuration)
    let easingValue := bezierEasing progress cfg.curveP1x cfg.curveP1y
      cfg.curveP2x cfg.curveP2y
    let s1 := loadingWrites cfg s fin.camZ easingValue
    if 1 ≤ progress then
      let lwtInit := match s1.lastWaveTime with
        | none => if cfg.waveEnabled then some fin.nowDate else none
        | some t => some t
      let s2 := { s1 with isLoadingAnimation := false, lastWaveTime := lwtInit }
      settledStep jm cfg fin mouseVel s2
    else s1
  | _, _ => settledStep jm cfg fin mouseVel s

/-- Left fold of Vec3.add over a list, used to state that a batch of
impulses is applied exactly once each. -/
def vsumList (l : List Vec3) : Vec3 := l.foldl Vec3.add Vec3.zero

/-- A concrete all-zero instantiation of the JS Math routines, for witnesses
whose evaluation never depends on a transcendental value. -/
def jmZero : JsMath where
  sqrt := fun _ => 0
  exp := fun _ => 0
  cos := fun _ => 0
  sin := fun _ => 0
  pi := 0

/-- A concrete instantiation of the JS Math routines whose sqrt is exact on
the perfect square 100 (the viewport diagonal used in witnesses). -/
def jmDiag : JsMath where
  sqrt := fun q => if q = 100 then 10 else 0
  exp := fun _ => 0
  cos := fun _ => 0
  sin := fun _ => 0
  pi := 0

/-- A constant random stream (every Math.random() draw returns 0, the jitter
coin always false). -/
def constRand : ParticleRand where
  chaosAngleDraw := 0
  chaosAzimuthDraw := 0
  tangentialAngleDraw := 0
  forceVariationDraw := 0
  zComponentDraw := 0
  jitterOn := false
  jitterDraw := ⟨0, 0, 0⟩
  explosionJitterDraw := fun _ => ⟨0, 0, 0⟩

/-- A quiet frame at clock time t: no pointer activity, the camera of the
witnesses (frustum 6 x 8, so the viewport diagonal is 10), constant random
draws. -/
def frameAt (t : ℚ) : FrameIn where
  nowDate := t
  nowPerf := t
  mouseVelocity := (0, 0)
  mouseMovedThisFrame := false
  isPointerDown := false
  isPointerInsideCanvas := false
  mouse3D := ⟨0, 0, 0⟩
  camZ := 12
  camLeft := -3
  camRight := 3
  camTop := 4
  camBottom := -4
  rand := fun _ => constRand

/-- The default configuration with periodic waves switched on. -/
def cfgWave : Config := { defaultConfig with waveEnabled := true }

/-- A wave configuration whose per-frame radius increment is exactly 1/10
(waveSpeed 25/4, timeScale 1). -/
def cfgWaveStep : Config :=
  { defaultConfig with waveEnabled := true, waveSpeed := 25/4, timeScale := 1 }

/-- An empty particle store in the loading state, started at clock 0. -/
def emptyLoadingState : SimState where
  totalParticleCount := 0
  positions := []
  originalPositions := []
  baseOriginalPositions := []
  startPositions := []
  scrollDirections := []
  velocities := []
  colors := []
  sizes := []
  baseSizes := []
  glows := []
  explosionGlowEndTimes := []
  explosionReturnTimes := []
  isLoadingAnimation := true
  loadAnimationStartTime := some 0
  lastWaveTime := none
  waves := []
  explosions := []
  wasWaveActive := false
  cachedGlowBrightness := 0.19
  cachedVelocityGlowMultiplier := 0.10
  glowStaticNeedsUpdate := false

/-- A settled one-particle store. -/
def oneState : SimState where
  totalParticleCount := 1
  positions := [⟨0, 0, 0⟩]
  originalPositions := [⟨0, 0, 0⟩]
  baseOriginalPositions := [⟨0, 0, 0⟩]
  startPositions := [⟨3, 0, 0⟩]
  scrollDirections := [⟨1, 0, 0⟩]
  velocities := [⟨0, 0, 0⟩]
  colors := [⟨0, 0, 0⟩]
  sizes := [4]
  baseSizes := [4]
  glows := [0]
  explosionGlowEndTimes := [0]
  explosionReturnTimes := [0]
  isLoadingAnimation := false
  loadAnimationStartTime := some 0
  lastWaveTime := none
  waves := []
  explosions := []
  wasWaveActive := false
  cachedGlowBrightness := 0.19
  cachedVelocityGlowMultiplier := 0.10
  glowStaticNeedsUpdate := false

/-- The one-particle store during the loading animation. -/
def oneLoadingState : SimState := { oneState with isLoadingAnimation := true }

/-- C1 counterexample: with the linear preset control points
(0.25,0.25),(0.75,0.75) the easing evaluator applied at t = 1/4 returns
29/128, not 1/4, so it is not the CSS cubic-bezier timing function (which is
the identity for control points on the diagonal). -/
theorem C1_counterexample :
    bezierEasing 0.25 0.25 0.25 0.75 0.75 = 29/128 ∧ (29/128 : ℚ) ≠ 0.25 := by
  constructor
  · unfold bezierEasing; norm_num
  · norm_num

/-- C1 amended: the evaluator returns the Bezier Y-polynomial evaluated
directly at the curve parameter clamp(t,0,1) — for the linear preset control
points this is (3/4)t + (3/4)t² - (1/2)t³ on [0,1], not t — while the CSS
boundary values B(0) = 0 and B(1) = 1 do hold for all control points. -/
theorem C1_direct_polynomial_not_css (t p1x p1y p2x p2y : ℚ)
    (h0 : 0 ≤ t) (h1 : t ≤ 1) :
    bezierEasing t 0.25 0.25 0.75 0.75 = 3/4 * t + 3/4 * t^2 - 1/2 * t^3
    ∧ bezierEasing 0 p1x p1y p2x p2y = 0
    ∧ bezierEasing 1 p1x p1y p2x p2y = 1 := by
  refine ⟨?_, ?_, ?_⟩
  · unfold bezierEasing
    rw [min_eq_right h1, max_eq_right h0]
    ring
  · unfold bezierEasing; norm_num
  · unfold bezierEasing; norm_num

/-- Witness for C1_direct_polynomial_not_css at t = 1/2. -/
theorem C1_direct_polynomial_not_css_witness :
    (0 ≤ (1/2 : ℚ)) ∧ ((1/2 : ℚ) ≤ 1)
    ∧ (bezierEasing (1/2) 0.25 0.25 0.75 0.75
        = 3/4 * (1/2 : ℚ) + 3/4 * (1/2 : ℚ)^2 - 1/2 * (1/2 : ℚ)^3
      ∧ bezierEasing 0 0.42 0 0.58 1 = 0
      ∧ bezierEasing 1 0.42 0 0.58 1 = 1) :=
  ⟨by norm_num, by norm_num,
    C1_direct_polynomial_not_css (1/2) 0.42 0 0.58 1 (by norm_num) (by norm_num)⟩

/-- C9: the depth-brightness component of particle i — depthBase applied to
the distance-buffer entry |z_i - camZ| and scaled by maxBrightness, exactly
as the settled color pass computes it — is a function of particle i's own
depth and the configuration alone: it is unchanged when every other
particle's depth changes, and equals
maxBrightness * (1 - clamp(|z_i - camZ| / 70, 0, 1) * depthDarkeningStrength)
with the fixed normalization range 70, never the frame's dynamic extent. -/
theorem C9_depth_brightness_noninterference (cfg : Config) (camZ : ℚ)
    (zs1 zs2 : List ℚ) (i : ℕ) (hz : zs1.getD i 0 = zs2.getD i 0) :
    depthBase cfg (depthDistance (zs1.getD i 0) camZ) * cfg.maxBrightness
      = depthBase cfg (depthDistance (zs2.getD i 0) camZ) * cfg.maxBrightness
    ∧ depthBase cfg (depthDistance (zs1.getD i 0) camZ) * cfg.maxBrightness
      = cfg.maxBrightness *
        (1 - max 0 (min 1 (|zs1.getD i 0 - camZ| / 70)) * cfg.depthDarkeningStrength) := by
  constructor
  · rw [hz]
  · unfold depthBase depthDistance fixedDistanceRange fixedMaxDistance fixedMinDistance
    norm_num
    ring

/-- Witness for C9_depth_brightness_noninterference: particle 0 at depth 5
in a cloud of one versus a cloud of two. -/
theorem C9_depth_brightness_noninterference_witness :
    (([(5 : ℚ)].getD 0 0) = ([(5 : ℚ), 40].getD 0 0))
    ∧ (depthBase defaultConfig (depthDistance ([(5 : ℚ)].getD 0 0) 12) * defaultConfig.maxBrightness
        = depthBase defaultConfig (depthDistance ([(5 : ℚ), 40].getD 0 0) 12) * defaultConfig.maxBrightness
      ∧ depthBase defaultConfig (depthDistance ([(5 : ℚ)].getD 0 0) 12) * defaultConfig.maxBrightness
        = defaultConfig.maxBrightness *
          (1 - max 0 (min 1 (|([(5 : ℚ)].getD 0 0) - 12| / 70)) * defaultConfig.depthDarkeningStrength)) :=
  ⟨rfl, C9_depth_brightness_noninterference defaultConfig 12 [5] [5, 40] 0 rfl⟩

/-- C7: when an explosion is processed for a particle, the return timer
becomes exactly now + explosionReturnDelay if no prior window is pending
(existing value ≤ now), and in general the later of the existing value and
now + explosionReturnDelay — likewise the glow timer with
explosionGlowDuration — so overlapping explosions extend, never shorten. -/
theorem C7_explosion_timers_extend (cfg : Config) (nowPerf ret glow : ℚ)
    (hret : ret ≤ nowPerf) (hglow : glow ≤ nowPerf)
    (hrd : 0 ≤ cfg.explosionReturnDelay) (hgd : 0 ≤ cfg.explosionGlowDuration) :
    (explosionTimers cfg nowPerf ret glow).1 = nowPerf + cfg.explosionReturnDelay
    ∧ (explosionTimers cfg nowPerf ret glow).2 = nowPerf + cfg.explosionGlowDuration
    ∧ ∀ ret2 glow2 : ℚ,
        (explosionTimers cfg nowPerf ret2 glow2).1
            = max ret2 (nowPerf + cfg.explosionReturnDelay)
        ∧ (explosionTimers cfg nowPerf ret2 glow2).2
            = max glow2 (nowPerf + cfg.explosionGlowDuration)
        ∧ ret2 ≤ (explosionTimers cfg nowPerf ret2 glow2).1
        ∧ nowPerf + cfg.explosionReturnDelay ≤ (explosionTimers cfg nowPerf ret2 glow2).1
        ∧ glow2 ≤ (explosionTimers cfg nowPerf ret2 glow2).2
        ∧ nowPerf + cfg.explosionGlowDuration ≤ (explosionTimers cfg nowPerf ret2 glow2).2 := by
  refine ⟨?_, ?_, ?_⟩
  · exact max_eq_right (hret.trans (le_add_of_nonneg_right hrd))
  · exact max_eq_right (hglow.trans (le_add_of_nonneg_right hgd))
  · intro ret2 glow2
    exact ⟨rfl, rfl, le_max_left _ _, le_max_right _ _, le_max_left _ _, le_max_right _ _⟩

/-- Witness for C7_explosion_timers_extend with the default delays at clock
1000 and expired timers 500 / 0. -/
theorem C7_explosion_timers_extend_witness :
    ((500 : ℚ) ≤ 1000) ∧ ((0 : ℚ) ≤ 1000)
    ∧ (0 ≤ defaultConfig.explosionReturnDelay) ∧ (0 ≤ defaultConfig.explosionGlowDuration)
    ∧ ((explosionTimers defaultConfig 1000 500 0).1 = 1000 + defaultConfig.explosionReturnDelay
      ∧ (explosionTimers defaultConfig 1000 500 0).2 = 1000 + defaultConfig.explosionGlowDuration
      ∧ ∀ ret2 glow2 : ℚ,
          (explosionTimers defaultConfig 1000 ret2 glow2).1
              = max ret2 (1000 + defaultConfig.explosionReturnDelay)
          ∧ (explosionTimers defaultConfig 1000 ret2 glow2).2
              = max glow2 (1000 + defaultConfig.explosionGlowDuration)
          ∧ ret2 ≤ (explosionTimers defaultConfig 1000 ret2 glow2).1
          ∧ 1000 + defaultConfig.explosionReturnDelay ≤ (explosionTimers defaultConfig 1000 ret2 glow2).1
          ∧ glow2 ≤ (explosionTimers defaultConfig 1000 ret2 glow2).2
          ∧ 1000 + defaultConfig.explosionGlowDuration ≤ (explosionTimers defaultConfig 1000 ret2 glow2).2) :=
  ⟨by norm_num, by norm_num, by norm_num [defaultConfig], by norm_num [defaultConfig],
    C7_explosion_timers_extend defaultConfig 1000 500 0 (by norm_num) (by norm_num)
      (by norm_num [defaultConfig]) (by norm_num [defaultConfig])⟩

/-- C6: a particle not in explosion free flight whose displacement (as the
step computes it, after the velocity advect) and velocity both have squared
length below the rest threshold is snapped exactly onto its target with
velocity exactly zero; and a particle exactly at its target with zero
velocity stays there — the rest state is a fixed point of the integrator. -/
theorem C6_rest_snap (cfg : Config) (target : Vec3) (p : PartPV)
    (hdisp : (Vec3.sub target (Vec3.add p.pos (Vec3.smul cfg.timeScale p.vel))).lengthSq
      < 0.001 * 0.001)
    (hvel : p.vel.lengthSq < 0.001 * 0.001) :
    integrate cfg false target p = ⟨target, Vec3.zero⟩
    ∧ integrate cfg false target ⟨target, Vec3.zero⟩ = ⟨target, Vec3.zero⟩ := by
  constructor
  · unfold integrate
    simp only [Bool.false_eq_true, if_false]
    rw [if_pos ⟨hdisp, hvel⟩]
  · unfold integrate
    simp only [Bool.false_eq_true, if_false]
    rw [if_pos]
    simp [Vec3.add, Vec3.smul, Vec3.sub, Vec3.lengthSq, Vec3.zero]
    norm_num

/-- Witness for C6_rest_snap: the default configuration, target (1,2,3), a
particle resting 0.0001 away with zero velocity. -/
theorem C6_rest_snap_witness :
    ((Vec3.sub ⟨1, 2, 3⟩ (Vec3.add ⟨1.0001, 2, 3⟩
        (Vec3.smul defaultConfig.timeScale ⟨0, 0, 0⟩))).lengthSq < 0.001 * 0.001)
    ∧ ((⟨0, 0, 0⟩ : Vec3).lengthSq < 0.001 * 0.001)
    ∧ (integrate defaultConfig false ⟨1, 2, 3⟩ ⟨⟨1.0001, 2, 3⟩, ⟨0, 0, 0⟩⟩
          = ⟨⟨1, 2, 3⟩, Vec3.zero⟩
      ∧ integrate defaultConfig false ⟨1, 2, 3⟩ ⟨⟨1, 2, 3⟩, Vec3.zero⟩
          = ⟨⟨1, 2, 3⟩, Vec3.zero⟩) :=
  ⟨by norm_num [Vec3.sub, Vec3.add, Vec3.smul, Vec3.lengthSq, defaultConfig],
   by norm_num [Vec3.lengthSq],
   C6_rest_snap defaultConfig ⟨1, 2, 3⟩ ⟨⟨1.0001, 2, 3⟩, ⟨0, 0, 0⟩⟩
     (by norm_num [Vec3.sub, Vec3.add, Vec3.smul, Vec3.lengthSq, defaultConfig])
     (by norm_num [Vec3.lengthSq])⟩

/-- C5 counterexample: with a frustum of width 6 and height 8 the viewport
diagonal is 10, but the removal threshold is maxWaveRadius + waveWidth =
5 + 1.6 = 6.6 where maxWaveRadius is HALF the diagonal; a wave advanced to
radius 7 is removed from the active list although 7 has not reached the full
diagonal plus the wave width (11.6), refuting the claimed threshold. -/
theorem C5_counterexample :
    maxWaveRadius jmDiag (-3) 3 4 (-4) = 5
    ∧ (waveAdvance cfgWaveStep ⟨6.9, 0⟩).radius = 7
    ∧ wavePropagate cfgWaveStep (maxWaveRadius jmDiag (-3) 3 4 (-4)) [⟨6.9, 0⟩] = []
    ∧ (waveAdvance cfgWaveStep ⟨6.9, 0⟩).radius
        < 2 * maxWaveRadius jmDiag (-3) 3 4 (-4) + cfgWaveStep.waveWidth := by
  have h1 : maxWaveRadius jmDiag (-3) 3 4 (-4) = 5 := by
    unfold maxWaveRadius jmDiag
    norm_num
  have h2 : (waveAdvance cfgWaveStep ⟨6.9, 0⟩).radius = 7 := by
    unfold waveAdvance cfgWaveStep defaultConfig
    norm_num
  refine ⟨h1, h2, ?_, ?_⟩
  · rw [h1]
    unfold wavePropagate
    rw [List.map_singleton]
    rw [List.filter_singleton]
    have : decide ((waveAdvance cfgWaveStep ⟨6.9, 0⟩).radius
        < 5 + cfgWaveStep.waveWidth) = false := by
      rw [decide_eq_false_iff_not, h2]
      norm_num [cfgWaveStep, defaultConfig]
    rw [this]
    rfl
  · rw [h1, h2]
    norm_num [cfgWaveStep, defaultConfig]

/-- C5 amended: each enabled settled frame advances every active wave's
radius by exactly waveSpeed * 0.016 * timeScale (strictly increasing when
waveSpeed * timeScale > 0), and the propagated list keeps exactly the
advanced waves whose new radius is still below maxWaveRadius + waveWidth,
where maxWaveRadius is HALF the viewport diagonal — removal happens at half
the diagonal plus the wave width, not at the full diagonal plus the width. -/
theorem C5_growth_and_removal (cfg : Config) (mwr : ℚ) (ws : List Wave)
    (w : Wave) (hpos : 0 < cfg.waveSpeed * cfg.timeScale) :
    ((waveAdvance cfg w).radius = w.radius + cfg.waveSpeed * 0.016 * cfg.timeScale)
    ∧ (w.radius < (waveAdvance cfg w).radius)
    ∧ (∀ w2, w2 ∈ wavePropagate cfg mwr ws ↔
        ∃ w0, w0 ∈ ws ∧ w2 = waveAdvance cfg w0 ∧ w2.radius < mwr + cfg.waveWidth) := by
  refine ⟨rfl, ?_, ?_⟩
  · show w.radius < w.radius + cfg.waveSpeed * 0.016 * cfg.timeScale
    have hinc : 0 < cfg.waveSpeed * 0.016 * cfg.timeScale := by
      have : cfg.waveSpeed * 0.016 * cfg.timeScale
          = 0.016 * (cfg.waveSpeed * cfg.timeScale) := by ring
      rw [this]
      exact mul_pos (by norm_num) hpos
    linarith
  · intro w2
    unfold wavePropagate
    simp only [List.mem_filter, List.mem_map, decide_eq_true_eq]
    constructor
    · rintro ⟨⟨w0, hw0, rfl⟩, hlt⟩
      exact ⟨w0, hw0, rfl, hlt⟩
    · rintro ⟨w0, hw0, rfl, hlt⟩
      exact ⟨⟨w0, hw0, rfl⟩, hlt⟩

/-- Witness for C5_growth_and_removal at the concrete step configuration. -/
theorem C5_growth_and_removal_witness :
    (0 < cfgWaveStep.waveSpeed * cfgWaveStep.timeScale)
    ∧ (((waveAdvance cfgWaveStep ⟨0, 0⟩).radius
          = (0 : ℚ) + cfgWaveStep.waveSpeed * 0.016 * cfgWaveStep.timeScale)
      ∧ ((0 : ℚ) < (waveAdvance cfgWaveStep ⟨0, 0⟩).radius)
      ∧ (∀ w2, w2 ∈ wavePropagate cfgWaveStep 5 [⟨0, 0⟩] ↔
          ∃ w0, w0 ∈ [(⟨0, 0⟩ : Wave)] ∧ w2 = waveAdvance cfgWaveStep w0
            ∧ w2.radius < 5 + cfgWaveStep.waveWidth)) :=
  ⟨by norm_num [cfgWaveStep, defaultConfig],
    C5_growth_and_removal cfgWaveStep 5 [⟨0, 0⟩] ⟨0, 0⟩
      (by norm_num [cfgWaveStep, defaultConfig])⟩

theorem Vec3.add_zero (v : Vec3) : Vec3.add v Vec3.zero = v := by
  simp [Vec3.add, Vec3.zero]

theorem Vec3.zero_add (v : Vec3) : Vec3.add Vec3.zero v = v := by
  simp [Vec3.add, Vec3.zero]

theorem Vec3.add_assoc (a b c : Vec3) :
    Vec3.add (Vec3.add a b) c = Vec3.add a (Vec3.add b c) := by
  simp [Vec3.add]
  refine ⟨by ring, by ring, by ring⟩

theorem vsum_foldl (l : List Vec3) (x : Vec3) :
    l.foldl Vec3.add x = Vec3.add x (vsumList l) := by
  induction l generalizing x with
  | nil => simp [vsumList, Vec3.add_zero]
  | cons a l ih =>
    show l.foldl Vec3.add (Vec3.add x a) = Vec3.add x (vsumList (a :: l))
    rw [ih]
    have h : vsumList (a :: l) = Vec3.add a (vsumList l) := by
      show l.foldl Vec3.add (Vec3.add Vec3.zero a) = _
      rw [ih, Vec3.zero_add]
    rw [h, Vec3.add_assoc]

theorem filter_applied_map (l : List Explosion) :
    ((l.map (fun e => { e with applied := true })).filter (fun e => !e.applied)) = [] := by
  induction l with
  | nil => rfl
  | cons a t ih => simp

theorem cleanupExplosions_eq_nil (l : List Explosion) : cleanupExplosions l = [] := by
  cases l with
  | nil => rfl
  | cons a t =>
    unfold cleanupExplosions
    rw [if_pos (by simp)]
    exact filter_applied_map (a :: t)

theorem explStep_foldl (cfg : Config) (nowPerf : ℚ) (dir : Vec3) (jit : ℕ → Vec3)
    (l : List Explosion) (h : ∀ e ∈ l, e.applied = false) :
    ∀ (n : ℕ) (acc : Vec3 × ℚ × ℚ),
    ((l.enumFrom n).foldl (explStep cfg nowPerf dir jit true true) acc).1
      = Vec3.add acc.1
          (vsumList ((l.enumFrom n).map (fun p => explosionImpulse cfg dir (jit p.1)))) := by
  induction l with
  | nil => intro n acc; simp [vsumList, Vec3.add_zero]
  | cons a t ih =>
    intro n acc
    have ha : a.applied = false := h a (List.mem_cons_self a t)
    have ht : ∀ e ∈ t, e.applied = false := fun e he => h e (List.mem_cons_of_mem a he)
    have hstep : explStep cfg nowPerf dir jit true true acc (n, a)
        = (Vec3.add acc.1 (explosionImpulse cfg dir (jit n)),
           explosionTimers cfg nowPerf acc.2.1 acc.2.2) := by
      simp [explStep, ha]
    show ((t.enumFrom (n + 1)).foldl (explStep cfg nowPerf dir jit true true)
        (explStep cfg nowPerf dir jit true true acc (n, a))).1 = _
    rw [hstep, ih ht]
    show Vec3.add (Vec3.add acc.1 (explosionImpulse cfg dir (jit n))) _
        = Vec3.add acc.1 (vsumList (explosionImpulse cfg dir (jit n)
            :: (t.enumFrom (n + 1)).map (fun p => explosionImpulse cfg dir (jit p.1))))
    have hc : vsumList (explosionImpulse cfg dir (jit n)
          :: (t.enumFrom (n + 1)).map (fun p => explosionImpulse cfg dir (jit p.1)))
        = Vec3.add (explosionImpulse cfg dir (jit n))
            (vsumList ((t.enumFrom (n + 1)).map (fun p => explosionImpulse cfg dir (jit p.1)))) := by
      show ((t.enumFrom (n + 1)).map (fun p => explosionImpulse cfg dir (jit p.1))).foldl
          Vec3.add (Vec3.add Vec3.zero (explosionImpulse cfg dir (jit n))) = _
      rw [vsum_foldl, Vec3.zero_add]
    rw [hc, Vec3.add_assoc]

/-- C8: an explosion never persists across frames — when the settled step
processes a batch of explosions none of which is already marked applied,
each explosion adds its impulse to a particle's velocity exactly once (the
velocity ends at the old value plus the sum of one impulse per explosion),
and the end-of-frame cleanup empties the active explosion list regardless of
how many explosions were queued. -/
theorem C8_explosions_single_frame (cfg : Config) (nowPerf : ℚ) (dir : Vec3)
    (jit : ℕ → Vec3) (expl : List Explosion) (v : Vec3) (ret glow : ℚ)
    (h : ∀ e ∈ expl, e.applied = false) :
    (applyExplosionsToParticle cfg nowPerf dir jit true true expl v ret glow).1
      = Vec3.add v (vsumList (expl.enum.map (fun p => explosionImpulse cfg dir (jit p.1))))
    ∧ cleanupExplosions expl = [] := by
  constructor
  · show ((expl.enumFrom 0).foldl (explStep cfg nowPerf dir jit true true) (v, ret, glow)).1 = _
    exact explStep_foldl cfg nowPerf dir jit expl h 0 (v, ret, glow)
  · exact cleanupExplosions_eq_nil expl

/-- Witness for C8_explosions_single_frame: a batch of two unapplied
explosions at the origin acting on a zero-velocity particle. -/
theorem C8_explosions_single_frame_witness :
    (∀ e ∈ [(⟨⟨0, 0, 0⟩, 10, false⟩ : Explosion), ⟨⟨1, 0, 0⟩, 20, false⟩], e.applied = false)
    ∧ ((applyExplosionsToParticle defaultConfig 100 ⟨1, 0, 0⟩ (fun _ => ⟨0, 0, 0⟩) true true
          [⟨⟨0, 0, 0⟩, 10, false⟩, ⟨⟨1, 0, 0⟩, 20, false⟩] ⟨0, 0, 0⟩ 0 0).1
        = Vec3.add ⟨0, 0, 0⟩
            (vsumList (([(⟨⟨0, 0, 0⟩, 10, false⟩ : Explosion), ⟨⟨1, 0, 0⟩, 20, false⟩].enum).map
              (fun p => explosionImpulse defaultConfig ⟨1, 0, 0⟩ ((fun _ => (⟨0, 0, 0⟩ : Vec3)) p.1))))
      ∧ cleanupExplosions [(⟨⟨0, 0, 0⟩, 10, false⟩ : Explosion), ⟨⟨1, 0, 0⟩, 20, false⟩] = []) :=
  ⟨by simp,
    C8_explosions_single_frame defaultConfig 100 ⟨1, 0, 0⟩ (fun _ => ⟨0, 0, 0⟩)
      [⟨⟨0, 0, 0⟩, 10, false⟩, ⟨⟨1, 0, 0⟩, 20, false⟩] ⟨0, 0, 0⟩ 0 0 (by simp)⟩

theorem updAt_getD {α : Type} (l : List α) (n : ℕ) (f : ℕ → α) (i : ℕ) (d : α)
    (hi : i < n) (hl : i < l.length) : (updAt l n f).getD i d = f i := by
  have hl2 : i < (updAt l n f).length := by
    unfold updAt
    rw [List.length_mapIdx]
    exact hl
  rw [List.getD_eq_get _ _ hl2]
  unfold updAt
  rw [List.get_mapIdx l _ i hl]
  rw [if_pos hi]

theorem deriveBrightness_le_one (jm : JsMath) (cfg : Config) (wa : Bool)
    (bounds : Option (ℚ × ℚ)) (ws : List Wave) (wc : Vec3) (nowPerf : ℚ)
    (p : ColorIn) : deriveBrightness jm cfg wa bounds ws wc nowPerf p ≤ 1 := by
  unfold deriveBrightness
  exact min_le_right _ _

/-- C2 counterexample: in a settled frame with the default configuration
(depthDarkeningStrength 1.85 > 1), a silhouette particle at the fixed
maximum depth distance 70, no wave and no explosion glow gets final
brightness -17/20 < 0 — the settled color pass clamps only from above, so
the claimed lower clamp at 0 fails. -/
theorem C2_counterexample :
    deriveBrightness jmZero defaultConfig false none [] waveCenter 100
      { idx := 0, distance := 70, inBaseRange := true, baseSize := 4, size := 4,
        pos := ⟨0, 0, 0⟩, glowEndInRange := true, glowEndTime := 0 } = -(17/20)
    ∧ (-(17/20) : ℚ) < 0 := by
  constructor
  · unfold deriveBrightness depthBase
    norm_num [defaultConfig, fixedDistanceRange, fixedMaxDistance, fixedMinDistance,
      min_def, max_def]
  · norm_num

/-- C2 amended: for every particle the settled color pass clamps the final
brightness from above at 1 and writes one common value to all three color
channels, but does not clamp from below — with depthDarkeningStrength > 1
the written value can be negative (see the counterexample). -/
theorem C2_brightness_upper_clamp_and_gray (jm : JsMath) (cfg : Config)
    (fin : FrameIn) (mv : ℚ × ℚ) (s : SimState) (i : ℕ) (d : Vec3)
    (hi : i < actualCount s) (hc : i < s.colors.length) :
    (((settledStep jm cfg fin mv s).colors.getD i d).x ≤ 1)
    ∧ ((settledStep jm cfg fin mv s).colors.getD i d).x
        = ((settledStep jm cfg fin mv s).colors.getD i d).y
    ∧ ((settledStep jm cfg fin mv s).colors.getD i d).y
        = ((settledStep jm cfg fin mv s).colors.getD i d).z := by
  simp only [settledStep]
  rw [updAt_getD _ _ _ _ _ hi hc]
  exact ⟨deriveBrightness_le_one _ _ _ _ _ _ _ _, rfl, rfl⟩

/-- Witness for C2_brightness_upper_clamp_and_gray on the one-particle
settled state. -/
theorem C2_brightness_upper_clamp_and_gray_witness :
    (0 < actualCount oneState) ∧ (0 < oneState.colors.length)
    ∧ ((((settledStep jmZero defaultConfig (frameAt 100) (0, 0) oneState).colors.getD 0
          Vec3.zero).x ≤ 1)
      ∧ ((settledStep jmZero defaultConfig (frameAt 100) (0, 0) oneState).colors.getD 0
          Vec3.zero).x
        = ((settledStep jmZero defaultConfig (frameAt 100) (0, 0) oneState).colors.getD 0
          Vec3.zero).y
      ∧ ((settledStep jmZero defaultConfig (frameAt 100) (0, 0) oneState).colors.getD 0
          Vec3.zero).y
        = ((settledStep jmZero defaultConfig (frameAt 100) (0, 0) oneState).colors.getD 0
          Vec3.zero).z) :=
  ⟨by norm_num [actualCount, oneState], by norm_num [oneState],
    C2_brightness_upper_clamp_and_gray jmZero defaultConfig (frameAt 100) (0, 0) oneState 0
      Vec3.zero (by norm_num [actualCount, oneState]) (by norm_num [oneState])⟩

/-- C3 counterexample: a particle with baseSize 0 and size 0 (no wave
reveals it) whose explosion glow window is still open gets final brightness
2/5, not 0 — the invisible-point suppression zeroes only the depth term and
explosion glow is still added on top. -/
theorem C3_counterexample :
    deriveBrightness jmZero defaultConfig false none [] waveCenter 100
      { idx := 0, distance := 0, inBaseRange := true, baseSize := 0, size := 0,
        pos := ⟨0, 0, 0⟩, glowEndInRange := true, glowEndTime := 350 } = 2/5
    ∧ (2/5 : ℚ) ≠ 0 := by
  constructor
  · unfold deriveBrightness depthBase
    norm_num [defaultConfig, fixedDistanceRange, fixedMaxDistance, fixedMinDistance,
      min_def, max_def]
  · norm_num

/-- C3 amended: when baseSize = 0 and the derived size is 0, the suppression
forces the depth-brightness term to 0, so with no active wave the final
brightness reduces to the explosion-glow contribution alone (clamped above
at 1); it is exactly 0 only when additionally no explosion glow window is
open. Wave glow (when waves are active) and explosion glow are still added
on top of the suppressed term. -/
theorem C3_suppression_only_depth (jm : JsMath) (cfg : Config)
    (bounds : Option (ℚ × ℚ)) (ws : List Wave) (wc : Vec3) (nowPerf : ℚ)
    (p : ColorIn) (hb : p.inBaseRange = true) (h0 : p.baseSize = 0)
    (hs : p.size = 0) :
    deriveBrightness jm cfg false bounds ws wc nowPerf p
      = min (if cfg.explosionEnabled ∧ p.glowEndInRange ∧ p.glowEndTime > nowPerf
             then cfg.explosionGlowIntensity * ((p.glowEndTime - nowPerf) / cfg.explosionGlowDuration)
             else 0) 1
    ∧ (p.glowEndTime ≤ nowPerf → deriveBrightness jm cfg false bounds ws wc nowPerf p = 0) := by
  have hmain : deriveBrightness jm cfg false bounds ws wc nowPerf p
      = min (if cfg.explosionEnabled ∧ p.glowEndInRange ∧ p.glowEndTime > nowPerf
             then cfg.explosionGlowIntensity * ((p.glowEndTime - nowPerf) / cfg.explosionGlowDuration)
             else 0) 1 := by
    simp only [deriveBrightness, hb, h0, hs, Bool.false_eq_true, if_false, if_true,
      eq_self_iff_true, and_self, true_and, and_true, zero_mul, mul_ite, mul_zero,
      ite_self, zero_add]
  refine ⟨hmain, fun hle => ?_⟩
  rw [hmain]
  rw [if_neg (by rintro ⟨-, -, hgt⟩; exact absurd hgt (not_lt.mpr hle))]
  norm_num

/-- Witness for C3_suppression_only_depth: invisible particle, no wave, an
open explosion glow window. -/
theorem C3_suppression_only_depth_witness :
    ((true : Bool) = true) ∧ ((0 : ℚ) = 0) ∧ ((0 : ℚ) = 0)
    ∧ (deriveBrightness jmZero defaultConfig false none [] waveCenter 100
          { idx := 0, distance := 0, inBaseRange := true, baseSize := 0, size := 0,
            pos := ⟨0, 0, 0⟩, glowEndInRange := true, glowEndTime := 350 }
        = min (if defaultConfig.explosionEnabled ∧ (true : Bool) ∧ (350 : ℚ) > 100
               then defaultConfig.explosionGlowIntensity * (((350 : ℚ) - 100) / defaultConfig.explosionGlowDuration)
               else 0) 1
      ∧ ((350 : ℚ) ≤ 100 → deriveBrightness jmZero defaultConfig false none [] waveCenter 100
          { idx := 0, distance := 0, inBaseRange := true, baseSize := 0, size := 0,
            pos := ⟨0, 0, 0⟩, glowEndInRange := true, glowEndTime := 350 } = 0)) :=
  ⟨rfl, rfl, rfl,
    C3_suppression_only_depth jmZero defaultConfig none [] waveCenter 100
      { idx := 0, distance := 0, inBaseRange := true, baseSize := 0, size := 0,
        pos := ⟨0, 0, 0⟩, glowEndInRange := true, glowEndTime := 350 } rfl rfl rfl⟩

/-- C4 counterexample: a loading run (duration 4000, waves enabled, interval
8000) whose progress reaches 1 at clock 4000 transitions to Settled and
initializes the cadence timer, but the active wave list is empty both on the
transition frame and on the following frame (clock 4016) — no wave is
created immediately after settling; the first wave can only appear a full
waveInterval later. -/
theorem C4_counterexample :
    ((updatePhysicsStep jmDiag cfgWave (frameAt 4000) emptyLoadingState).isLoadingAnimation
        = false)
    ∧ ((updatePhysicsStep jmDiag cfgWave (frameAt 4000) emptyLoadingState).lastWaveTime
        = some 4000)
    ∧ ((updatePhysicsStep jmDiag cfgWave (frameAt 4000) emptyLoadingState).waves = [])
    ∧ ((updatePhysicsStep jmDiag cfgWave (frameAt 4016)
          (updatePhysicsStep jmDiag cfgWave (frameAt 4000) emptyLoadingState)).waves = []) := by
  have h1 : updatePhysicsStep jmDiag cfgWave (frameAt 4000) emptyLoadingState
      = { emptyLoadingState with isLoadingAnimation := false, lastWaveTime := some 4000 } := by
    norm_num [updatePhysicsStep, loadingWrites, settledStep, waveUpdate, wavePropagate,
      waveBoundsOf, maxWaveRadius, cleanupExplosions, updAt, actualCount, frameAt, cfgWave,
      defaultConfig, emptyLoadingState, jmDiag, bezierEasing, decide_eq_true_eq]
  have h2 : updatePhysicsStep jmDiag cfgWave (frameAt 4016)
        { emptyLoadingState with isLoadingAnimation := false, lastWaveTime := some 4000 }
      = { emptyLoadingState with isLoadingAnimation := false, lastWaveTime := some 4000 } := by
    norm_num [updatePhysicsStep, loadingWrites, settledStep, waveUpdate, wavePropagate,
      waveBoundsOf, maxWaveRadius, cleanupExplosions, updAt, actualCount, frameAt, cfgWave,
      defaultConfig, emptyLoadingState, jmDiag, bezierEasing, decide_eq_true_eq]
  rw [h1, h2]
  refine ⟨rfl, rfl, rfl, rfl⟩

/-- C4 amended: on the Loading-to-Settled transition the wave cadence timer
is initialized to the transition frame's timestamp (not backdated), so the
transition frame itself creates no wave, and a later settled frame creates
the first wave only once a full waveInterval has elapsed since settling. -/
theorem C4_first_wave_full_interval (cfg : Config) (now mwr : ℚ)
    (hen : cfg.waveEnabled = true) (hint : 0 < cfg.waveInterval) :
    ((waveUpdate cfg false now mwr (some now) []).2.1 = [])
    ∧ ((waveUpdate cfg false now mwr (some now) []).1 = some now)
    ∧ (∀ t1, (waveUpdate cfg false t1 mwr (some now) []).2.1 ≠ [] →
        cfg.waveInterval ≤ t1 - now) := by
  have hnopush : decide (cfg.waveInterval ≤ now - now) = false := by
    rw [decide_eq_false_iff_not, sub_self]
    exact not_le.mpr hint
  refine ⟨?_, ?_, ?_⟩
  · simp only [waveUpdate, hen, Bool.not_false, Bool.and_self, if_true, hnopush,
      Bool.false_eq_true, if_false, wavePropagate, List.map_nil, List.filter_nil]
  · simp only [waveUpdate, hen, Bool.not_false, Bool.and_self, if_true, hnopush,
      Bool.false_eq_true, if_false]
  · intro t1 hne
    by_contra hlt
    apply hne
    have hpush : decide (cfg.waveInterval ≤ t1 - now) = false := by
      rw [decide_eq_false_iff_not]
      exact hlt
    simp only [waveUpdate, hen, Bool.not_false, Bool.and_self, if_true, hpush,
      Bool.false_eq_true, if_false, wavePropagate, List.map_nil, List.filter_nil]

/-- Witness for C4_first_wave_full_interval with the wave-enabled default
configuration at transition clock 4000. -/
theorem C4_first_wave_full_interval_witness :
    (cfgWave.waveEnabled = true) ∧ (0 < cfgWave.waveInterval)
    ∧ (((waveUpdate cfgWave false 4000 5 (some 4000) []).2.1 = [])
      ∧ ((waveUpdate cfgWave false 4000 5 (some 4000) []).1 = some 4000)
      ∧ (∀ t1, (waveUpdate cfgWave false t1 5 (some 4000) []).2.1 ≠ [] →
          cfgWave.waveInterval ≤ t1 - 4000)) :=
  ⟨rfl, by norm_num [cfgWave, defaultConfig],
    C4_first_wave_full_interval cfgWave 4000 5 rfl (by norm_num [cfgWave, defaultConfig])⟩

/-- C10: while the loading animation is active (progress strictly below 1),
one call of updatePhysics leaves every particle's velocity, target position,
base position, start position, scroll direction, size, base size and both
explosion timers bit-for-bit unchanged, and touches neither the wave nor the
explosion lists, the cadence timer, nor the loading flag — only positions,
colors and glows are written; in particular no force source acts on
velocities during loading. -/
theorem C10_loading_frame_inert (jm : JsMath) (cfg : Config) (fin : FrameIn)
    (s : SimState) (t0 : ℚ)
    (hL : s.isLoadingAnimation = true)
    (hT : s.loadAnimationStartTime = some t0)
    (hP : (fin.nowDate - t0) / cfg.loadAnimationDuration < 1) :
    (updatePhysicsStep jm cfg fin s).velocities = s.velocities
    ∧ (updatePhysicsStep jm cfg fin s).originalPositions = s.originalPositions
    ∧ (updatePhysicsStep jm cfg fin s).baseOriginalPositions = s.baseOriginalPositions
    ∧ (updatePhysicsStep jm cfg fin s).startPositions = s.startPositions
    ∧ (updatePhysicsStep jm cfg fin s).scrollDirections = s.scrollDirections
    ∧ (updatePhysicsStep jm cfg fin s).sizes = s.sizes
    ∧ (updatePhysicsStep jm cfg fin s).baseSizes = s.baseSizes
    ∧ (updatePhysicsStep jm cfg fin s).explosionReturnTimes = s.explosionReturnTimes
    ∧ (updatePhysicsStep jm cfg fin s).explosionGlowEndTimes = s.explosionGlowEndTimes
    ∧ (updatePhysicsStep jm cfg fin s).waves = s.waves
    ∧ (updatePhysicsStep jm cfg fin s).explosions = s.explosions
    ∧ (updatePhysicsStep jm cfg fin s).lastWaveTime = s.lastWaveTime
    ∧ (updatePhysicsStep jm cfg fin s).isLoadingAnimation = true := by
  have hlt : ¬ (1 ≤ min 1 ((fin.nowDate - t0) / cfg.loadAnimationDuration)) := by
    intro hge
    exact absurd (lt_of_le_of_lt (hge.trans (min_le_right _ _)) hP) (lt_irrefl 1)
  have hstep : updatePhysicsStep jm cfg fin s
      = loadingWrites cfg s fin.camZ
          (bezierEasing (min 1 ((fin.nowDate - t0) / cfg.loadAnimationDuration))
            cfg.curveP1x cfg.curveP1y cfg.curveP2x cfg.curveP2y) := by
    simp only [updatePhysicsStep, hL, hT]
    rw [if_neg hlt]
  rw [hstep]
  simp [loadingWrites, hL]

/-- Witness for C10_loading_frame_inert: the one-particle loading state a
quarter of the way through the default four-second animation. -/
theorem C10_loading_frame_inert_witness :
    (oneLoadingState.isLoadingAnimation = true)
    ∧ (oneLoadingState.loadAnimationStartTime = some 0)
    ∧ (((frameAt 1000).nowDate - 0) / defaultConfig.loadAnimationDuration < 1)
    ∧ ((updatePhysicsStep jmZero defaultConfig (frameAt 1000) oneLoadingState).velocities
        = oneLoadingState.velocities
      ∧ (updatePhysicsStep jmZero defaultConfig (frameAt 1000) oneLoadingState).originalPositions
        = oneLoadingState.originalPositions
      ∧ (updatePhysicsStep jmZero defaultConfig (frameAt 1000) oneLoadingState).baseOriginalPositions
        = oneLoadingState.baseOriginalPositions
      ∧ (updatePhysicsStep jmZero defaultConfig (frameAt 1000) oneLoadingState).startPositions
        = oneLoadingState.startPositions
      ∧ (updatePhysicsStep jmZero defaultConfig (frameAt 1000) oneLoadingState).scrollDirections
        = oneLoadingState.scrollDirections
      ∧ (updatePhysicsStep jmZero defaultConfig (frameAt 1000) oneLoadingState).sizes
        = oneLoadingState.sizes
      ∧ (updatePhysicsStep jmZero defaultConfig (frameAt 1000) oneLoadingState).baseSizes
        = oneLoadingState.baseSizes
      ∧ (updatePhysicsStep jmZero defaultConfig (frameAt 1000) oneLoadingState).explosionReturnTimes
        = oneLoadingState.explosionReturnTimes
      ∧ (updatePhysicsStep jmZero defaultConfig (frameAt 1000) oneLoadingState).explosionGlowEndTimes
        = oneLoadingState.explosionGlowEndTimes
      ∧ (updatePhysicsStep jmZero defaultConfig (frameAt 1000) oneLoadingState).waves
        = oneLoadingState.waves
      ∧ (updatePhysicsStep jmZero defaultConfig (frameAt 1000) oneLoadingState).explosions
        = oneLoadingState.explosions
      ∧ (updatePhysicsStep jmZero defaultConfig (frameAt 1000) oneLoadingState).lastWaveTime
        = oneLoadingState.lastWaveTime
      ∧ (updatePhysicsStep jmZero defaultConfig (frameAt 1000) oneLoadingState).isLoadingAnimation
        = true) :=
  ⟨rfl, rfl, by norm_num [frameAt, defaultConfig],
    C10_loading_frame_inert jmZero defaultConfig (frameAt 1000) oneLoadingState 0 rfl rfl
      (by norm_num [frameAt, defaultConfig])⟩
